import Mathlib

/-!
Verification of the GeetCode extension core: the token lifecycle manager
(`src/stores/auth.ts`) and the content upsert engine (`pushToGitHub`).

Strings traveling through the system are modelled as `List Char`; raw byte
content (the submission code and base64 payloads) as `List Nat` with bytes
below 256. Remote endpoints are modelled by a `Remote` record that fixes the
responses the network would give, and each operation returns, besides its new
state, the list of remote requests it issued.
-/

/-- Coerce a Lean string literal to the `List Char` representation used here. -/
def str (s : String) : List Char := s.data

/-- JS falsiness for an optional string: `null`/`undefined` and `""` are falsy. -/
def jsFalsyStr (o : Option (List Char)) : Bool :=
  match o with
  | none => true
  | some l => l.isEmpty

/-- JS `x || d` on an optional string: an absent or empty `x` yields `d`. -/
def jsOrElse (o : Option (List Char)) (d : List Char) : List Char :=
  match o with
  | some m => if m = [] then d else m
  | none => d

/-- JS falsiness for an optional numeric timestamp: absent and `0` are falsy. -/
def jsFalsyInt (o : Option Int) : Bool :=
  match o with
  | none => true
  | some c => c = 0

/-- `Response.ok` of the Fetch API: status in the 2xx range. -/
def respOk (status : Nat) : Bool :=
  decide (200 ≤ status) && decide (status < 300)

/-- `content.replace(/\n/g, '')`: drop newline bytes from a byte string. -/
def stripNewlines (l : List Nat) : List Nat :=
  l.filter (fun b => b ≠ 10)

/-! ### Base64 (`btoa` and its inverse) -/

/-- The base64 alphabet: sextet index to ASCII code. -/
def b64Char (n : Nat) : Nat :=
  if n < 26 then 65 + n
  else if n < 52 then 97 + (n - 26)
  else if n < 62 then 48 + (n - 52)
  else if n = 62 then 43
  else 47

/-- ASCII code of a base64 alphabet character back to its sextet index. -/
def b64Index (c : Nat) : Nat :=
  if 65 ≤ c ∧ c ≤ 90 then c - 65
  else if 97 ≤ c ∧ c ≤ 122 then 26 + (c - 97)
  else if 48 ≤ c ∧ c ≤ 57 then 52 + (c - 48)
  else if c = 43 then 62
  else 63

/-- `btoa`: base64-encode a byte string (output as ASCII codes, `61` is `=`). -/
def base64Encode : List Nat → List Nat
  | [] => []
  | [a] => [b64Char (a / 4), b64Char (a % 4 * 16), 61, 61]
  | [a, b] => [b64Char (a / 4), b64Char (a % 4 * 16 + b / 16), b64Char (b % 16 * 4), 61]
  | a :: b :: c :: rest =>
      b64Char (a / 4) :: b64Char (a % 4 * 16 + b / 16) ::
      b64Char (b % 16 * 4 + c / 64) :: b64Char (c % 64) :: base64Encode rest

/-- `atob`: decode a base64 string back to bytes. -/
def base64Decode : List Nat → List Nat
  | c1 :: c2 :: c3 :: c4 :: rest =>
      let n1 := b64Index c1
      let n2 := b64Index c2
      if c3 = 61 then [n1 * 4 + n2 / 16]
      else
        let n3 := b64Index c3
        if c4 = 61 then [n1 * 4 + n2 / 16, n2 % 16 * 16 + n3 / 4]
        else (n1 * 4 + n2 / 16) :: (n2 % 16 * 16 + n3 / 4) ::
             (n3 % 4 * 64 + b64Index c4) :: base64Decode rest
  | _ => []

theorem b64Index_b64Char : ∀ n, n < 64 → b64Index (b64Char n) = n := by decide

theorem b64Char_ne_61 : ∀ n, n < 64 → b64Char n ≠ 61 := by decide

theorem base64_roundtrip (bs : List Nat) (h : ∀ b ∈ bs, b < 256) :
    base64Decode (base64Encode bs) = bs := by
  induction bs using base64Encode.induct with
  | case1 => simp [base64Encode, base64Decode]
  | case2 a =>
      have ha : a < 256 := h a (by simp)
      have h1 : a / 4 < 64 := by omega
      have h2 : a % 4 * 16 < 64 := by omega
      simp only [base64Encode, base64Decode]
      rw [if_true, b64Index_b64Char _ h1, b64Index_b64Char _ h2]
      simp only [List.cons.injEq, and_true]
      omega
  | case3 a b =>
      have ha : a < 256 := h a (by simp)
      have hb : b < 256 := h b (by simp)
      have h1 : a / 4 < 64 := by omega
      have h2 : a % 4 * 16 + b / 16 < 64 := by omega
      have h3 : b % 16 * 4 < 64 := by omega
      simp only [base64Encode, base64Decode]
      rw [if_neg (b64Char_ne_61 _ h3), if_true]
      rw [b64Index_b64Char _ h1, b64Index_b64Char _ h2, b64Index_b64Char _ h3]
      simp only [List.cons.injEq, and_true]
      exact ⟨by omega, by omega⟩
  | case4 a b c rest ih =>
      have ha : a < 256 := h a (by simp)
      have hb : b < 256 := h b (by simp)
      have hc : c < 256 := h c (by simp)
      have hrest : ∀ x ∈ rest, x < 256 := fun x hx => h x (by simp [hx])
      have h1 : a / 4 < 64 := by omega
      have h2 : a % 4 * 16 + b / 16 < 64 := by omega
      have h3 : b % 16 * 4 + c / 64 < 64 := by omega
      have h4 : c % 64 < 64 := by omega
      simp only [base64Encode, base64Decode]
      rw [if_neg (b64Char_ne_61 _ h3), if_neg (b64Char_ne_61 _ h4)]
      rw [b64Index_b64Char _ h1, b64Index_b64Char _ h2, b64Index_b64Char _ h3,
          b64Index_b64Char _ h4, ih hrest]
      simp only [List.cons.injEq, and_true]
      exact ⟨by omega, by omega, by omega⟩

/-! ### Data model -/

/-- `SubmissionData` from `src/lib/types`: the fields `pushToGitHub` reads. -/
structure SubmissionData where
  problemTitle : List Char
  language : List Char
  code : List Nat
deriving DecidableEq

/-- All reactive store cells of `auth.ts` and the push module, together with
the persistent `chrome.storage.local` keys they read and write. -/
structure State where
  githubToken : Option (List Char)
  githubUser : Option (List Char)
  authLoading : Bool
  authError : Option (List Char)
  selectedRepo : Option (List Char)
  latestSubmission : Option SubmissionData
  pushLoading : Bool
  pushError : Option (List Char)
  pushSuccess : Bool
  storedToken : Option (List Char)
  storedCreatedAt : Option Int
deriving DecidableEq

/-- Response to the contents GET: HTTP status, and for 2xx the JSON body's
`sha` and newline-delimited base64 `content`. -/
structure ReadResp where
  status : Nat
  sha : List Char
  content : Option (List Nat)
deriving DecidableEq

/-- Response to the contents PUT: HTTP status, and for failures the JSON
body's `message`. -/
structure WriteResp where
  status : Nat
  message : Option (List Char)
deriving DecidableEq

/-- The remote endpoints' behaviour during one operation: the responses the
network returns to the read and the write step. -/
structure Remote where
  read : ReadResp
  write : WriteResp
deriving DecidableEq

/-- JSON body of the contents PUT request. -/
structure WriteBody where
  message : List Char
  content : List Nat
  branch : List Char
  sha : Option (List Char)
deriving DecidableEq

/-- A remote request issued by an operation. -/
inductive Request where
  | readContents (path : List Char)
  | writeContents (path : List Char) (body : WriteBody)
  | verifyUser
  | fetchUser
deriving DecidableEq

/-! ### `auth.ts` -/

/-- `TOKEN_REVALIDATION_MS = 7 * 24 * 60 * 60 * 1000`. -/
def TOKEN_REVALIDATION_MS : Int := 7 * 24 * 60 * 60 * 1000

/-- Modelled from the spec: `clearAuth` (imported from `src/lib/storage`,
which is not part of the sources) erases the persisted credential — the
stored token and its creation timestamp. -/
def clearAuth (s : State) : State :=
  { s with storedToken := none, storedCreatedAt := none }

/-- `handleInvalidToken`: clear persisted auth, null the session token and
profile, set the session-expired auth error. -/
def handleInvalidToken (s : State) : State :=
  { clearAuth s with
    githubToken := none, githubUser := none,
    authError := some (str "Session expired. Please sign in again.") }

/-- `fetchUserInfo`: on a 2xx response set `githubUser`; any failure is
swallowed. `fetched` is the profile the remote would return, `none` for any
non-2xx or transport failure. -/
def fetchUserInfo (fetched : Option (List Char)) (s : State) : State :=
  match fetched with
  | some u => { s with githubUser := some u }
  | none => s

/-- `checkAuthStatus`: revalidate-or-trust the stored credential.
`now` is `Date.now()`, `verifyOk` the outcome the identity endpoint would
give to `verifyToken`, `fetched` the profile `fetchUserInfo` would obtain.
Returns the final state and the remote requests issued. -/
def checkAuthStatus (now : Int) (verifyOk : Bool) (fetched : Option (List Char))
    (s : State) : State × List Request :=
  let s1 : State := { s with authLoading := true, authError := none }
  match s1.storedToken with
  | none => ({ s1 with authLoading := false }, [])
  | some storedToken =>
    if storedToken = [] then ({ s1 with authLoading := false }, [])
    else
      let tokenAge : Int := now - (s1.storedCreatedAt.getD 0)
      let needsRevalidation : Bool :=
        jsFalsyInt s1.storedCreatedAt || decide (tokenAge > TOKEN_REVALIDATION_MS)
      if needsRevalidation then
        if verifyOk then
          let s2 := { s1 with storedCreatedAt := some now, githubToken := some storedToken }
          ({ fetchUserInfo fetched s2 with authLoading := false },
           [Request.verifyUser, Request.fetchUser])
        else
          ({ handleInvalidToken s1 with authLoading := false }, [Request.verifyUser])
      else
        let s2 := { s1 with githubToken := some storedToken }
        ({ fetchUserInfo fetched s2 with authLoading := false }, [Request.fetchUser])

/-! ### The push module -/

/-- The static language → file-extension table. -/
def extensionMap (l : List Char) : Option (List Char) :=
  if l = str "python" then some (str "py")
  else if l = str "python3" then some (str "py")
  else if l = str "javascript" then some (str "js")
  else if l = str "typescript" then some (str "ts")
  else if l = str "cpp" then some (str "c++")
  else if l = str "c#" then some (str "cs")
  else if l = str "csharp" then some (str "cs")
  else if l = str "java" then some (str "java")
  else if l = str "c" then some (str "c")
  else if l = str "go" then some (str "go")
  else if l = str "rust" then some (str "rs")
  else if l = str "ruby" then some (str "rb")
  else if l = str "swift" then some (str "swift")
  else if l = str "kotlin" then some (str "kt")
  else if l = str "scala" then some (str "scala")
  else if l = str "php" then some (str "php")
  else none

/-- `problemTitle.replace(/[\/\\?%*:|"<>]/g, '-')`. -/
def sanitizeTitle (title : List Char) : List Char :=
  title.map (fun c =>
    if c ∈ ['/', '\\', '?', '%', '*', ':', '|', '"', '<', '>'] then '-' else c)

/-- `language.toLowerCase()` (ASCII). -/
def toLowerList (l : List Char) : List Char :=
  l.map Char.toLower

/-- The destination path `` `${safeTitle}.${ext}` `` a submission maps to. -/
def filePathOf (sub : SubmissionData) : List Char :=
  sanitizeTitle sub.problemTitle ++
    ('.' :: ((extensionMap (toLowerList sub.language)).getD (str "txt")))

/-- The error message thrown on a 401 during push. -/
def sessionExpiredMsg : List Char := str "Session expired — please sign in again"

/-- `existing.content?.replace(/\n/g, '') === btoa(submission.code)`: the
stored content, if present, equals the encoded new code after stripping the
newlines GitHub inserts; an absent `content` field never matches. -/
def contentMatches (content : Option (List Nat)) (enc : List Nat) : Bool :=
  match content with
  | some c => stripNewlines c = enc
  | none => false

/-- `pushToGitHub`: upsert the latest submission into the selected repository.
`commitMessage` is the optional caller-supplied message, `remote` fixes the
responses of the contents endpoints. Returns the final state, the settled
promise (`Except.error` for a thrown exception), and the requests issued. -/
def pushToGitHub (commitMessage : Option (List Char)) (remote : Remote)
    (s : State) : State × Except (List Char) Bool × List Request :=
  if jsFalsyStr s.githubToken then (s, .error (str "Not authenticated"), [])
  else if jsFalsyStr s.selectedRepo then (s, .error (str "No repository selected"), [])
  else
    match s.latestSubmission with
    | none => (s, .error (str "No submission to push"), [])
    | some submission =>
      let s1 : State := { s with pushLoading := true, pushError := none, pushSuccess := false }
      let safeTitle := sanitizeTitle submission.problemTitle
      let message := jsOrElse commitMessage (safeTitle ++ str " Solved")
      let filePath := filePathOf submission
      let readReq := Request.readContents filePath
      if remote.read.status = 401 then
        ({ handleInvalidToken s1 with pushError := some sessionExpiredMsg, pushLoading := false },
         .error sessionExpiredMsg, [readReq])
      else
        let sha : Option (List Char) :=
          if respOk remote.read.status then some remote.read.sha else none
        if respOk remote.read.status &&
           contentMatches remote.read.content (base64Encode submission.code) then
          ({ s1 with pushSuccess := true, pushLoading := false }, .ok false, [readReq])
        else
          let body : WriteBody :=
            { message := message, content := base64Encode submission.code,
              branch := str "main",
              sha := match sha with
                     | some t => if t = [] then none else some t
                     | none => none }
          let writeReq := Request.writeContents filePath body
          if remote.write.status = 401 then
            ({ handleInvalidToken s1 with pushError := some sessionExpiredMsg, pushLoading := false },
             .error sessionExpiredMsg, [readReq, writeReq])
          else if respOk remote.write.status = false then
            let msg := jsOrElse remote.write.message (str "Failed to push to GitHub")
            ({ s1 with pushError := some msg, pushLoading := false },
             .error msg, [readReq, writeReq])
          else
            ({ s1 with pushSuccess := true, pushLoading := false }, .ok true, [readReq, writeReq])

/-! ### Concrete fixtures for witnesses and counterexamples -/

/-- The spec's scenario submission: Two Sum in python, code `print(1)` as bytes. -/
def twoSum : SubmissionData :=
  { problemTitle := str "Two Sum", language := str "python",
    code := [112, 114, 105, 110, 116, 40, 49, 41] }

/-- A fully populated example state: authenticated, repo selected, submission loaded. -/
def exampleState : State :=
  { githubToken := some (str "tok"), githubUser := none, authLoading := false,
    authError := none, selectedRepo := some (str "user/repo"),
    latestSubmission := some twoSum, pushLoading := false, pushError := none,
    pushSuccess := false, storedToken := some (str "tok"), storedCreatedAt := some 5 }

/-! ### Claim theorems -/

/-- C5: the three push preconditions are checked in the order token, repository,
submission; each violation raises its own distinct error immediately, with the
state untouched and no remote request issued. -/
theorem push_preconditions (cm : Option (List Char)) (remote : Remote) (s : State) :
    (jsFalsyStr s.githubToken = true →
      pushToGitHub cm remote s = (s, Except.error (str "Not authenticated"), []))
    ∧ (jsFalsyStr s.githubToken = false → jsFalsyStr s.selectedRepo = true →
      pushToGitHub cm remote s = (s, Except.error (str "No repository selected"), []))
    ∧ (jsFalsyStr s.githubToken = false → jsFalsyStr s.selectedRepo = false →
      s.latestSubmission = none →
      pushToGitHub cm remote s = (s, Except.error (str "No submission to push"), [])) := by
  refine ⟨fun h1 => ?_, fun h1 h2 => ?_, fun h1 h2 h3 => ?_⟩
  · simp [pushToGitHub, h1]
  · simp [pushToGitHub, h1, h2]
  · simp [pushToGitHub, h1, h2, h3]

/-- Witness for C5 at a concrete unauthenticated state. -/
theorem push_preconditions_witness :
    pushToGitHub none ⟨⟨404, [], none⟩, ⟨201, none⟩⟩ { exampleState with githubToken := none } =
      ({ exampleState with githubToken := none }, Except.error (str "Not authenticated"), []) :=
  (push_preconditions none ⟨⟨404, [], none⟩, ⟨201, none⟩⟩
    { exampleState with githubToken := none }).1 (by decide)

/-- C10: when the persistent store holds no token, `checkAuthStatus` leaves the
session token and profile unchanged, ends with no auth error, the loading flag
back off, and issues no remote request. -/
theorem checkAuthStatus_no_token (now : Int) (v : Bool) (f : Option (List Char))
    (s : State) (h : s.storedToken = none) :
    checkAuthStatus now v f s = ({ s with authLoading := false, authError := none }, []) := by
  simp [checkAuthStatus, h]

/-- Witness for C10 at a concrete state with no stored token. -/
theorem checkAuthStatus_no_token_witness :
    checkAuthStatus 1000 true (some (str "octocat")) { exampleState with storedToken := none } =
      ({ exampleState with storedToken := none, authLoading := false, authError := none }, []) := by
  have h := checkAuthStatus_no_token 1000 true (some (str "octocat"))
    { exampleState with storedToken := none } rfl
  exact h

/-- C2: when the fetched remote file exists and its stored content (newlines
stripped) equals the base64 encoding of the submission's code, push is a
no-op: it returns `written = false`, sets the success flag with no error, and
issues no write request. -/
theorem push_identical_skip (cm : Option (List Char)) (remote : Remote) (s : State)
    (sub : SubmissionData)
    (h1 : jsFalsyStr s.githubToken = false) (h2 : jsFalsyStr s.selectedRepo = false)
    (h3 : s.latestSubmission = some sub)
    (hok : respOk remote.read.status = true)
    (hid : contentMatches remote.read.content (base64Encode sub.code) = true) :
    pushToGitHub cm remote s =
      ({ s with pushLoading := false, pushError := none, pushSuccess := true },
       Except.ok false, [Request.readContents (filePathOf sub)]) := by
  have h401 : ¬ remote.read.status = 401 := by
    intro h; rw [h] at hok; simp [respOk] at hok
  simp [pushToGitHub, h1, h2, h3, h401, hok, hid]

/-- Witness for C2: re-pushing `print(1)` over an identical remote file. -/
theorem push_identical_skip_witness :
    pushToGitHub none
        ⟨⟨200, str "abc123", some (base64Encode twoSum.code)⟩, ⟨500, none⟩⟩ exampleState =
      ({ exampleState with pushLoading := false, pushError := none, pushSuccess := true },
       Except.ok false, [Request.readContents (filePathOf twoSum)]) :=
  push_identical_skip none ⟨⟨200, str "abc123", some (base64Encode twoSum.code)⟩, ⟨500, none⟩⟩
    exampleState twoSum (by decide) (by decide) rfl (by decide) rfl

/-- C3: for a stored credential (a nonempty token; timestamps are real, i.e.
nonzero), `checkAuthStatus` issues a revalidation request exactly when the
creation timestamp is missing or the age `now - createdAt` strictly exceeds
the 7-day window. -/
theorem checkAuthStatus_revalidation_iff (now : Int) (v : Bool) (f : Option (List Char))
    (s : State) (tok : List Char)
    (htok : s.storedToken = some tok) (hne : tok ≠ [])
    (hz : s.storedCreatedAt ≠ some 0) :
    Request.verifyUser ∈ (checkAuthStatus now v f s).2 ↔
      (s.storedCreatedAt = none ∨
       ∃ c, s.storedCreatedAt = some c ∧ now - c > TOKEN_REVALIDATION_MS) := by
  cases hc : s.storedCreatedAt with
  | none =>
    simp only [checkAuthStatus, htok, hc, jsFalsyInt, hne]
    cases v <;> simp [hne]
  | some c =>
    have hcz : ¬ c = 0 := fun h => hz (by rw [hc, h])
    by_cases hgt : now - c > TOKEN_REVALIDATION_MS
    · simp only [checkAuthStatus, htok, hc, jsFalsyInt]
      cases v <;> simp [hne, hcz, hgt]
    · simp only [checkAuthStatus, htok, hc, jsFalsyInt]
      simp [hne, hcz, hgt]

/-- Witness for C3 at the spec's boundary: `createdAt = now - 7 days - 1 ms`
(here `now = 604800002`, `createdAt = 1`) triggers a revalidation request. -/
theorem checkAuthStatus_revalidation_iff_witness :
    Request.verifyUser ∈ (checkAuthStatus 604800002 true (some (str "octocat"))
      { exampleState with storedCreatedAt := some 1 }).2 :=
  (checkAuthStatus_revalidation_iff 604800002 true (some (str "octocat"))
      { exampleState with storedCreatedAt := some 1 } (str "tok") rfl (by decide)
      (by decide)).mpr
    (Or.inr ⟨1, rfl, by decide⟩)

/-- C8 (amended): on the fresh-credential path (stored token present, real
timestamp within the 7-day window) the token is exposed through the session
store and no revalidation request is issued — but one remote call is still
made: the user-profile fetch. -/
theorem checkAuthStatus_fresh (now : Int) (v : Bool) (f : Option (List Char))
    (s : State) (tok : List Char) (c : Int)
    (htok : s.storedToken = some tok) (hne : tok ≠ [])
    (hc : s.storedCreatedAt = some c) (hcz : c ≠ 0)
    (hfresh : now - c ≤ TOKEN_REVALIDATION_MS) :
    (checkAuthStatus now v f s).1.githubToken = some tok
    ∧ (checkAuthStatus now v f s).2 = [Request.fetchUser] := by
  have hgt : ¬ now - c > TOKEN_REVALIDATION_MS := not_lt.mpr hfresh
  cases f <;> simp [checkAuthStatus, htok, hne, hc, jsFalsyInt, hcz, hgt, fetchUserInfo]

/-- Witness for C8's amended theorem at a concrete fresh credential. -/
theorem checkAuthStatus_fresh_witness :
    (checkAuthStatus 10 true (some (str "octocat")) exampleState).1.githubToken = some (str "tok")
    ∧ (checkAuthStatus 10 true (some (str "octocat")) exampleState).2 = [Request.fetchUser] :=
  checkAuthStatus_fresh 10 true (some (str "octocat")) exampleState (str "tok") 5
    rfl (by decide) rfl (by decide) (by decide)

/-- Counterexample for C8 as stated: a fresh stored credential (age `10 - 5`,
well within the window) still causes a remote request — the profile fetch —
so "no remote call of any kind is made on this path" is false. -/
theorem checkAuthStatus_fresh_cex :
    (exampleState.storedToken = some (str "tok"))
    ∧ (exampleState.storedCreatedAt = some 5)
    ∧ ((10 : Int) - 5 ≤ TOKEN_REVALIDATION_MS)
    ∧ (checkAuthStatus 10 true (some (str "octocat")) exampleState).2 ≠ [] := by
  refine ⟨rfl, rfl, by decide, by decide⟩

/-- C1: a 401 on the read step, or a 401 on the write step when a write is
attempted, makes push clear the persisted credential, null the session token
and profile, and fail with the session-expired error; after a 401 on the read
step no write request is issued. -/
theorem push_401 (cm : Option (List Char)) (remote : Remote) (s : State)
    (sub : SubmissionData)
    (h1 : jsFalsyStr s.githubToken = false) (h2 : jsFalsyStr s.selectedRepo = false)
    (h3 : s.latestSubmission = some sub)
    (h401 : remote.read.status = 401 ∨
      ((respOk remote.read.status &&
          contentMatches remote.read.content (base64Encode sub.code)) = false ∧
       remote.write.status = 401)) :
    (pushToGitHub cm remote s).1.githubToken = none
    ∧ (pushToGitHub cm remote s).1.githubUser = none
    ∧ (pushToGitHub cm remote s).1.storedToken = none
    ∧ (pushToGitHub cm remote s).1.storedCreatedAt = none
    ∧ (pushToGitHub cm remote s).2.1 = Except.error sessionExpiredMsg
    ∧ (remote.read.status = 401 →
        (pushToGitHub cm remote s).2.2 = [Request.readContents (filePathOf sub)]) := by
  rcases h401 with hr | ⟨hnid, hw⟩
  · simp [pushToGitHub, h1, h2, h3, hr, handleInvalidToken, clearAuth]
  · by_cases hr401 : remote.read.status = 401
    · simp [pushToGitHub, h1, h2, h3, hr401, handleInvalidToken, clearAuth]
    · simp [pushToGitHub, h1, h2, h3, hr401, hnid, hw, handleInvalidToken, clearAuth]

/-- Witness for C1: a 401 on the read step at a concrete state. -/
theorem push_401_witness :
    (pushToGitHub none ⟨⟨401, [], none⟩, ⟨200, none⟩⟩ exampleState).1.githubToken = none
    ∧ (pushToGitHub none ⟨⟨401, [], none⟩, ⟨200, none⟩⟩ exampleState).1.githubUser = none
    ∧ (pushToGitHub none ⟨⟨401, [], none⟩, ⟨200, none⟩⟩ exampleState).1.storedToken = none
    ∧ (pushToGitHub none ⟨⟨401, [], none⟩, ⟨200, none⟩⟩ exampleState).1.storedCreatedAt = none
    ∧ (pushToGitHub none ⟨⟨401, [], none⟩, ⟨200, none⟩⟩ exampleState).2.1 =
        Except.error sessionExpiredMsg
    ∧ ((401 : Nat) = 401 →
        (pushToGitHub none ⟨⟨401, [], none⟩, ⟨200, none⟩⟩ exampleState).2.2 =
          [Request.readContents (filePathOf twoSum)]) :=
  push_401 none ⟨⟨401, [], none⟩, ⟨200, none⟩⟩ exampleState twoSum
    (by decide) (by decide) rfl (Or.inl rfl)

/-- C4: whenever push reaches the write step, the write request body carries
the fetched file's `sha` when the read step found an existing file (with
different content and a nonempty sha), and no `sha` field when the read step
did not find one. -/
theorem push_sha (cm : Option (List Char)) (remote : Remote) (s : State)
    (sub : SubmissionData)
    (h1 : jsFalsyStr s.githubToken = false) (h2 : jsFalsyStr s.selectedRepo = false)
    (h3 : s.latestSubmission = some sub) :
    (respOk remote.read.status = true →
     contentMatches remote.read.content (base64Encode sub.code) = false →
     remote.read.sha ≠ [] →
     (pushToGitHub cm remote s).2.2 =
       [Request.readContents (filePathOf sub),
        Request.writeContents (filePathOf sub)
          { message := jsOrElse cm (sanitizeTitle sub.problemTitle ++ str " Solved"),
            content := base64Encode sub.code, branch := str "main",
            sha := some remote.read.sha }])
    ∧ (respOk remote.read.status = false → remote.read.status ≠ 401 →
       (pushToGitHub cm remote s).2.2 =
         [Request.readContents (filePathOf sub),
          Request.writeContents (filePathOf sub)
            { message := jsOrElse cm (sanitizeTitle sub.problemTitle ++ str " Solved"),
              content := base64Encode sub.code, branch := str "main",
              sha := none }]) := by
  constructor
  · intro hok hnid hsha
    have hr401 : ¬ remote.read.status = 401 := by
      intro h; rw [h] at hok; simp [respOk] at hok
    by_cases hw : remote.write.status = 401
    · simp [pushToGitHub, h1, h2, h3, hr401, hok, hnid, hsha, hw]
    · by_cases hw2 : respOk remote.write.status = false
      · simp [pushToGitHub, h1, h2, h3, hr401, hok, hnid, hsha, hw, hw2]
      · simp [pushToGitHub, h1, h2, h3, hr401, hok, hnid, hsha, hw, hw2]
  · intro hnok hr401
    by_cases hw : remote.write.status = 401
    · simp [pushToGitHub, h1, h2, h3, hr401, hnok, hw]
    · by_cases hw2 : respOk remote.write.status = false
      · simp [pushToGitHub, h1, h2, h3, hr401, hnok, hw, hw2]
      · simp [pushToGitHub, h1, h2, h3, hr401, hnok, hw, hw2]

/-- Witness for C4: an existing remote file with different content and
`sha = "abc123"` makes the write request carry that sha. -/
theorem push_sha_witness :
    (pushToGitHub none ⟨⟨200, str "abc123", some (base64Encode [0])⟩, ⟨200, none⟩⟩
        exampleState).2.2 =
      [Request.readContents (filePathOf twoSum),
       Request.writeContents (filePathOf twoSum)
         { message := jsOrElse none (sanitizeTitle twoSum.problemTitle ++ str " Solved"),
           content := base64Encode twoSum.code, branch := str "main",
           sha := some (str "abc123") }] :=
  (push_sha none ⟨⟨200, str "abc123", some (base64Encode [0])⟩, ⟨200, none⟩⟩
      exampleState twoSum (by decide) (by decide) rfl).1
    (by decide) (by decide) (by decide)

/-- C6: push derives the destination path by sanitizing `problemTitle` (each
of `/ \ ? % * : | " < >` becomes `-`) and appending the extension the
lowercased language maps to (default `txt`), and defaults the commit message
to `"<sanitizedTitle> Solved"`; with no existing remote file and a successful
write it performs a create (no sha) at that path and returns `written = true`. -/
theorem push_create (cm : Option (List Char)) (remote : Remote) (s : State)
    (sub : SubmissionData)
    (h1 : jsFalsyStr s.githubToken = false) (h2 : jsFalsyStr s.selectedRepo = false)
    (h3 : s.latestSubmission = some sub)
    (hnf : respOk remote.read.status = false) (hr401 : remote.read.status ≠ 401)
    (hwok : respOk remote.write.status = true) :
    pushToGitHub cm remote s =
      ({ s with pushLoading := false, pushError := none, pushSuccess := true },
       Except.ok true,
       [Request.readContents (filePathOf sub),
        Request.writeContents (filePathOf sub)
          { message := jsOrElse cm (sanitizeTitle sub.problemTitle ++ str " Solved"),
            content := base64Encode sub.code, branch := str "main", sha := none }])
    ∧ filePathOf sub =
        sanitizeTitle sub.problemTitle ++
          ('.' :: ((extensionMap (toLowerList sub.language)).getD (str "txt"))) := by
  have hw401 : ¬ remote.write.status = 401 := by
    intro h; rw [h] at hwok; simp [respOk] at hwok
  refine ⟨?_, rfl⟩
  simp [pushToGitHub, h1, h2, h3, hr401, hnf, hw401, hwok]

/-- Witness for C6: the spec scenario — `{Two Sum, python, print(1)}` with no
existing remote file creates `Two Sum.py` with message `"Two Sum Solved"` and
returns `written = true`. -/
theorem push_create_witness :
    filePathOf twoSum = str "Two Sum.py"
    ∧ sanitizeTitle twoSum.problemTitle ++ str " Solved" = str "Two Sum Solved"
    ∧ pushToGitHub none ⟨⟨404, [], none⟩, ⟨201, none⟩⟩ exampleState =
      ({ exampleState with pushLoading := false, pushError := none, pushSuccess := true },
       Except.ok true,
       [Request.readContents (filePathOf twoSum),
        Request.writeContents (filePathOf twoSum)
          { message := jsOrElse none (sanitizeTitle twoSum.problemTitle ++ str " Solved"),
            content := base64Encode twoSum.code, branch := str "main", sha := none }]) :=
  ⟨by decide, by decide,
   (push_create none ⟨⟨404, [], none⟩, ⟨201, none⟩⟩ exampleState twoSum
     (by decide) (by decide) rfl (by decide) (by decide) (by decide)).1⟩

/-- C7 (amended): on every invocation that passes the three preconditions the
transient flags are initialized at entry and finalized at exit — the loading
flag ends cleared on every exit path, a fulfilled push ends with no error and
the success flag set, and a thrown push ends with the thrown message as the
error and the success flag reset. Invocations that fail a precondition throw
before any flag is touched and leave the state unchanged. -/
theorem push_flags (cm : Option (List Char)) (remote : Remote) (s : State) :
    ((jsFalsyStr s.githubToken = true
      ∨ (jsFalsyStr s.githubToken = false ∧ jsFalsyStr s.selectedRepo = true)
      ∨ (jsFalsyStr s.githubToken = false ∧ jsFalsyStr s.selectedRepo = false
         ∧ s.latestSubmission = none)) →
      (pushToGitHub cm remote s).1 = s)
    ∧ (∀ sub, jsFalsyStr s.githubToken = false → jsFalsyStr s.selectedRepo = false →
       s.latestSubmission = some sub →
       ((pushToGitHub cm remote s).1.pushLoading = false
        ∧ (∀ b, (pushToGitHub cm remote s).2.1 = Except.ok b →
            (pushToGitHub cm remote s).1.pushError = none
            ∧ (pushToGitHub cm remote s).1.pushSuccess = true)
        ∧ (∀ e, (pushToGitHub cm remote s).2.1 = Except.error e →
            (pushToGitHub cm remote s).1.pushError = some e
            ∧ (pushToGitHub cm remote s).1.pushSuccess = false))) := by
  constructor
  · rintro (h1 | ⟨h1, h2⟩ | ⟨h1, h2, h3⟩)
    · simp [pushToGitHub, h1]
    · simp [pushToGitHub, h1, h2]
    · simp [pushToGitHub, h1, h2, h3]
  · intro sub h1 h2 h3
    by_cases hr401 : remote.read.status = 401
    · simp [pushToGitHub, h1, h2, h3, hr401, handleInvalidToken, clearAuth]
    · by_cases hid : (respOk remote.read.status &&
        contentMatches remote.read.content (base64Encode sub.code)) = true
      · simp [pushToGitHub, h1, h2, h3, hr401, hid]
      · by_cases hw401 : remote.write.status = 401
        · simp [pushToGitHub, h1, h2, h3, hr401, hid, hw401, handleInvalidToken, clearAuth]
        · by_cases hwok : respOk remote.write.status = false
          · simp [pushToGitHub, h1, h2, h3, hr401, hid, hw401, hwok]
          · simp [pushToGitHub, h1, h2, h3, hr401, hid, hw401, hwok]

/-- Witness for C7's amended theorem: a successful create finishes with the
loading flag off, no error, and the success flag on. -/
theorem push_flags_witness :
    (pushToGitHub none ⟨⟨404, [], none⟩, ⟨201, none⟩⟩ exampleState).1.pushLoading = false
    ∧ (pushToGitHub none ⟨⟨404, [], none⟩, ⟨201, none⟩⟩ exampleState).1.pushError = none
    ∧ (pushToGitHub none ⟨⟨404, [], none⟩, ⟨201, none⟩⟩ exampleState).1.pushSuccess = true := by
  have h := ((push_flags none ⟨⟨404, [], none⟩, ⟨201, none⟩⟩ exampleState).2 twoSum
    (by decide) (by decide) rfl)
  exact ⟨h.1, (h.2.1 true rfl).1, (h.2.1 true rfl).2⟩

/-- An unauthenticated state whose transient push flags are stale: the loading
flag is still on and an old error message is still present. -/
def staleState : State :=
  { exampleState with githubToken := none, pushLoading := true, pushError := some (str "old") }

/-- Counterexample for C7 as stated: an invocation that fails the token
precondition throws before touching any flag — the stale loading flag stays
`true` and the prior error is not cleared, so the flags are neither set at
entry nor cleared at exit on this path. -/
theorem push_flags_cex :
    pushToGitHub none ⟨⟨404, [], none⟩, ⟨201, none⟩⟩ staleState =
      (staleState, Except.error (str "Not authenticated"), [])
    ∧ staleState.pushLoading = true
    ∧ staleState.pushError = some (str "old") := ⟨rfl, rfl, by decide⟩

/-- C9: whatever write request a push issues carries the base64 encoding of
the submission's code, and decoding that content reconstructs the original
code bytes exactly. -/
theorem push_roundtrip (cm : Option (List Char)) (remote : Remote) (s : State)
    (sub : SubmissionData) (p : List Char) (b : WriteBody)
    (h3 : s.latestSubmission = some sub)
    (hw : Request.writeContents p b ∈ (pushToGitHub cm remote s).2.2)
    (hbytes : ∀ x ∈ sub.code, x < 256) :
    b.content = base64Encode sub.code ∧ base64Decode b.content = sub.code := by
  have hc : b.content = base64Encode sub.code := by
    by_cases h1 : jsFalsyStr s.githubToken = true
    · simp [pushToGitHub, h1] at hw
    · by_cases h2 : jsFalsyStr s.selectedRepo = true
      · simp [pushToGitHub, h1, h2] at hw
      · rw [Bool.not_eq_true] at h1 h2
        by_cases hr401 : remote.read.status = 401
        · simp [pushToGitHub, h1, h2, h3, hr401] at hw
        · by_cases hid : (respOk remote.read.status &&
            contentMatches remote.read.content (base64Encode sub.code)) = true
          · simp [pushToGitHub, h1, h2, h3, hr401, hid] at hw
          · by_cases hw401 : remote.write.status = 401
            · simp [pushToGitHub, h1, h2, h3, hr401, hid, hw401] at hw
              rw [hw.2]
            · by_cases hwok : respOk remote.write.status = false
              · simp [pushToGitHub, h1, h2, h3, hr401, hid, hw401, hwok] at hw
                rw [hw.2]
              · simp [pushToGitHub, h1, h2, h3, hr401, hid, hw401, hwok] at hw
                rw [hw.2]
  exact ⟨hc, by rw [hc]; exact base64_roundtrip sub.code hbytes⟩

/-- Witness for C9: decoding the content of the concrete create request for
`print(1)` yields the original bytes. -/
theorem push_roundtrip_witness :
    (WriteBody.content
        { message := jsOrElse none (sanitizeTitle twoSum.problemTitle ++ str " Solved"),
          content := base64Encode twoSum.code, branch := str "main", sha := none }) =
      base64Encode twoSum.code
    ∧ base64Decode (WriteBody.content
        { message := jsOrElse none (sanitizeTitle twoSum.problemTitle ++ str " Solved"),
          content := base64Encode twoSum.code, branch := str "main", sha := none }) =
      twoSum.code :=
  push_roundtrip none ⟨⟨404, [], none⟩, ⟨201, none⟩⟩ exampleState twoSum
    (filePathOf twoSum)
    { message := jsOrElse none (sanitizeTitle twoSum.problemTitle ++ str " Solved"),
      content := base64Encode twoSum.code, branch := str "main", sha := none }
    rfl (by decide) (by decide)
